import Mathlib

/-!
Verification development for the interview-backend core: the credential
vault (`cryptoUtils.js`), the key/model registry (`aiKeysManager.js`),
the model-capability resolver (`models/settings.js`), the prompt-template
substitution and response-recovery logic of the HTTP orchestrator
(`server.js`).

JavaScript strings are embedded as Lean `String`/`List Char`; JavaScript
numbers reaching the modelled code are integers (`Int`/`Nat`); `undefined`
and `null` are `Option.none`.  Byte buffers are `List Nat` with every
element `< 256`.
-/

set_option maxRecDepth 10000

namespace Backend

/-! ## JavaScript string primitives -/

/-- The JavaScript whitespace class (`\s`, and the set trimmed by
`String.prototype.trim`): space, tab, LF, VT, FF, CR, NBSP and the
Unicode space separators used by the ECMA-262 definition. -/
def isJsWhitespace (c : Char) : Bool :=
  c = ' ' ∨ c = '\t' ∨ c = '\n' ∨ c.toNat = 11 ∨ c.toNat = 12 ∨ c = '\r' ∨
  c.toNat = 0xa0 ∨ c.toNat = 0x1680 ∨
  (0x2000 ≤ c.toNat ∧ c.toNat ≤ 0x200a) ∨
  c.toNat = 0x2028 ∨ c.toNat = 0x2029 ∨ c.toNat = 0x202f ∨
  c.toNat = 0x205f ∨ c.toNat = 0x3000 ∨ c.toNat = 0xfeff

/-- `String.prototype.trim`: strip JavaScript whitespace from both ends. -/
def jsTrim (s : String) : String :=
  ⟨(s.data.dropWhile isJsWhitespace).reverse.dropWhile isJsWhitespace |>.reverse⟩

/-- `String.prototype.toLowerCase`, for the ASCII range (the model
identifiers handled by the resolver are ASCII). -/
def jsToLowerCase (s : String) : String :=
  ⟨s.data.map Char.toLower⟩

/-- `String.prototype.startsWith` (literal prefix test). -/
def jsStartsWith (s pre : String) : Bool :=
  pre.data.isPrefixOf s.data

/-- Bool test for `String.prototype.includes` on character lists. -/
def occursIn (pat : List Char) : List Char → Bool
  | [] => pat.isEmpty
  | c :: cs => pat.isPrefixOf (c :: cs) || occursIn pat cs

/-- `a.includes(b)` for strings. -/
def jsIncludes (s sub : String) : Bool :=
  occursIn sub.data s.data

/-- Maximal leading run of decimal digits. -/
def digitRun : List Char → List Char
  | [] => []
  | c :: cs => if c.isDigit then c :: digitRun cs else []

/-- `parseInt` on a non-empty all-digit capture. -/
def digitsToNat (l : List Char) : Nat :=
  l.foldl (fun a c => a * 10 + (c.toNat - 48)) 0

/-- Case-sensitive literal match: if `pat` is a prefix of `s`, return the
rest of `s`. -/
def stripLitCS (pat s : List Char) : Option (List Char) :=
  match pat, s with
  | [], s => some s
  | _ :: _, [] => none
  | p :: ps, c :: cs => if p = c then stripLitCS ps cs else none

/-- Model of `s.match(/LIT(\d+)/)`: scan left to right for the first
index at which the literal `pat` is followed by at least one digit, and
return `parseInt` of the maximal digit run there (the regex capture). -/
def searchLitDigits (pat : List Char) : List Char → Option Nat
  | [] => none
  | c :: cs =>
    match stripLitCS pat (c :: cs) with
    | some (d :: ds) =>
      if d.isDigit then some (digitsToNat (digitRun (d :: ds)))
      else searchLitDigits pat cs
    | _ => searchLitDigits pat cs

/-! ## Model Capability Resolver (`models/settings.js`) -/

/-- The fixed allow-list inside `getSafeModel` (`settings.js`):
models confirmed to exist on the OpenAI API. -/
def confirmedAvailableModels : List String :=
  ["gpt-4o-mini", "gpt-4o", "gpt-4-turbo", "gpt-4", "gpt-3.5-turbo"]

/-- `getSafeModel` (`settings.js`): return the requested id when it is in
the confirmed allow-list; otherwise fall back to `gpt-4o-mini` (both the
recognizable-OpenAI-shape branch and the final branch return the same
fallback; they differ only in the warning they log). -/
def getSafeModel (modelId : String) : String :=
  if confirmedAvailableModels.contains modelId then
    modelId
  else if modelId ≠ "" ∧ (jsStartsWith modelId "gpt-" ∨ jsStartsWith modelId "o") then
    "gpt-4o-mini"
  else
    "gpt-4o-mini"

/-- The optional-version capture of `normalized.match(/gpt-3.5-turbo(?:-(\d+))?/)`
inside the branch of `supportsJsonMode` guarded by
`normalizedId.startsWith('gpt-3.5-turbo')`: inside that branch the regex
always matches at index 0 (the unescaped `.` matching the literal dot),
and the group captures the digit run after a following hyphen, when the
hyphen is followed by at least one digit. -/
def gpt35TurboVersionCapture (normalizedId : String) : Option Nat :=
  match normalizedId.data.drop 13 with
  | '-' :: d :: ds =>
    if d.isDigit then some (digitsToNat (digitRun (d :: ds))) else none
  | _ => none

/-- `supportsJsonMode` (`settings.js`): whether the model id supports the
OpenAI `response_format: json_object` mode, decided purely from the
normalized (lower-cased, trimmed) identifier. -/
def supportsJsonMode (modelId : String) : Bool :=
  if modelId = "" then false
  else
    let normalizedId := jsTrim (jsToLowerCase modelId)
    if normalizedId = "gpt-4o" ∨ normalizedId = "gpt-4o-mini" then true
    else if normalizedId = "gpt-4-turbo" ∨ normalizedId = "gpt-4-turbo-preview" then true
    else if jsStartsWith normalizedId "gpt-4-" then
      match searchLitDigits "gpt-4-".data normalizedId.data with
      | some version => decide (version ≥ 1106)
      | none => false
    else if normalizedId = "gpt-4" then false
    else if jsStartsWith normalizedId "gpt-3.5-turbo" then
      match gpt35TurboVersionCapture normalizedId with
      | some version => decide (version ≥ 1106)
      | none =>
        jsIncludes normalizedId "1106" || jsIncludes normalizedId "0125" ||
          jsIncludes normalizedId "16"
    else if normalizedId = "gpt-5" ∨ normalizedId = "gpt-5.1" ∨
        normalizedId = "gpt-5-mini" ∨ jsStartsWith normalizedId "gpt-5" then true
    else false

/-! ## Key/Model Registry (`aiKeysManager.js`) -/

/-- A model descriptor `{id, name, provider}` as stored in the catalog. -/
structure ModelDescriptor where
  id : String
  name : String
  provider : String
deriving DecidableEq, Repr

/-- `DEFAULT_MODELS` (`aiKeysManager.js`): the immutable built-in catalog. -/
def DEFAULT_MODELS : List ModelDescriptor :=
  [⟨"gpt-5", "GPT-5", "openai"⟩,
   ⟨"gpt-5.1", "GPT-5.1", "openai"⟩,
   ⟨"gpt-5-mini", "GPT-5 Mini", "openai"⟩,
   ⟨"gpt-4o-mini", "GPT-4o Mini", "openai"⟩,
   ⟨"gpt-4o", "GPT-4o", "openai"⟩,
   ⟨"gpt-4-turbo", "GPT-4 Turbo", "openai"⟩,
   ⟨"gpt-3.5-turbo", "GPT-3.5 Turbo", "openai"⟩,
   ⟨"claude-3-5-sonnet-20241022", "Claude 3.5 Sonnet", "anthropic"⟩,
   ⟨"claude-3-opus-20240229", "Claude 3 Opus", "anthropic"⟩,
   ⟨"claude-3-sonnet-20240229", "Claude 3 Sonnet", "anthropic"⟩,
   ⟨"claude-3-haiku-20240307", "Claude 3 Haiku", "anthropic"⟩,
   ⟨"gemini-2.0-flash-exp", "Gemini 2.0 Flash (Experimental)", "google"⟩,
   ⟨"gemini-1.5-pro", "Gemini 1.5 Pro", "google"⟩,
   ⟨"gemini-1.5-flash", "Gemini 1.5 Flash", "google"⟩,
   ⟨"gemini-pro", "Gemini Pro", "google"⟩,
   ⟨"grok-beta", "Grok Beta", "xai"⟩]

/-- `Object.keys(PROVIDER_INFO)` (`aiKeysManager.js`). -/
def PROVIDER_IDS : List String :=
  ["openai", "anthropic", "google", "xai"]

/-- The persisted registry record `{keys, models, activeModel}`.  `keys`
maps a provider to its serialized ciphertext bundle (always a non-empty
JSON string when present).  `models` and `activeModel` are `Option`
because the persisted JSON object may lack either field (`db.models ||
DEFAULT_MODELS`, `db.activeModel || 'gpt-5-mini'` in the source). -/
structure KeysDB where
  keys : List (String × String)
  models : Option (List ModelDescriptor)
  activeModel : Option String
deriving Repr

/-- The default structure returned by `loadKeysDB` when no record is
persisted (fresh registry). -/
def freshKeysDB : KeysDB :=
  { keys := [], models := some DEFAULT_MODELS, activeModel := some "gpt-5-mini" }

/-- Association-list lookup used for `keys[provider]`. -/
def lookupStr (l : List (String × String)) (k : String) : Option String :=
  (l.find? (fun kv => kv.1 = k)).map (fun kv => kv.2)

/-- Return shape of `getAllKeys`. -/
structure AllKeysResult where
  models : List ModelDescriptor
  activeModel : String
  hasKeys : Bool
  providerKeys : List (String × Bool)
deriving Repr

/-- `getAllKeys` (`aiKeysManager.js`): merge `DEFAULT_MODELS` with the
persisted `db.models`, dropping persisted entries whose id is already a
built-in id, and report per-provider key presence without plaintext. -/
def getAllKeys (db : KeysDB) : AllKeysResult :=
  let keys := db.keys
  let providerKeys := PROVIDER_IDS.map (fun p => (p, (lookupStr keys p).isSome))
  let dbModels := db.models.getD []
  let defaultModelIds := DEFAULT_MODELS.map (fun m => m.id)
  let customModels := dbModels.filter (fun m => !(defaultModelIds.contains m.id))
  { models := DEFAULT_MODELS ++ customModels
    activeModel := db.activeModel.getD "gpt-5-mini"
    hasKeys := !keys.isEmpty
    providerKeys := providerKeys }

/-- `getActiveModel` (`aiKeysManager.js`). -/
def getActiveModel (db : KeysDB) : String :=
  db.activeModel.getD "gpt-5-mini"

/-- `setActiveModel` (`aiKeysManager.js`): validate the id against
`db.models || DEFAULT_MODELS` (note: the persisted list itself, not the
merged catalog computed by `getAllKeys`), then persist it as active.
The `saveKeysDB` file write is modelled by returning the updated record. -/
def setActiveModel (db : KeysDB) (modelId : String) : Except String KeysDB :=
  let models := db.models.getD DEFAULT_MODELS
  if models.any (fun m => m.id = modelId) then
    Except.ok { db with activeModel := some modelId }
  else
    Except.error "Model not found"

/-- The ids of the catalog exposed by `getAllKeys`. -/
def mergedCatalogIds (db : KeysDB) : List String :=
  (getAllKeys db).models.map (fun m => m.id)

/-- Modelled from the spec words of the catalog invariant: the built-in
catalog unioned with exactly those persisted custom models whose ids do
not collide with any built-in id.  Used only to compare against the
source-derived `getAllKeys`. -/
def specCatalogUnion (builtIn custom : List ModelDescriptor) : List ModelDescriptor :=
  builtIn ++ custom.filter (fun m => decide (∀ d ∈ builtIn, d.id ≠ m.id))

/-! ## Credential Vault (`cryptoUtils.js`)

`encrypt`/`decrypt` implement AES-256-GCM with a key derived by
`scryptSync(masterKey, 'salt', 32)` and a fresh random 16-byte IV per
call, exchanging hex-encoded buffers.  The embedding models the GCM mode
of operation explicitly (CTR keystream XOR plus a deterministic
authentication tag over key, IV and ciphertext) and takes the
cryptographic primitives (scrypt, the keystream generator, the GHASH
tag) as a parameter record of pure functions, since their internals are
irrelevant to the round-trip contract.  Plaintexts are byte lists (the
UTF-8 bytes Node produces from the JavaScript string); the `utf8` codec
is an injective collaborator, so byte-level round-trip gives string
round-trip. -/

/-- Lower-case hex digit of a nibble (`Buffer.toString('hex')`). -/
def hexDigit (n : Nat) : Char :=
  if n < 10 then Char.ofNat (48 + n) else Char.ofNat (87 + n)

/-- Hex encoding of a byte list (`buf.toString('hex')`). -/
def hexEncodeBytes (bs : List Nat) : String :=
  ⟨bs.foldr (fun b acc => hexDigit (b / 16) :: hexDigit (b % 16) :: acc) []⟩

/-- Value of one hex digit, accepting both cases. -/
def hexVal (c : Char) : Option Nat :=
  if '0' ≤ c ∧ c ≤ '9' then some (c.toNat - 48)
  else if 'a' ≤ c ∧ c ≤ 'f' then some (c.toNat - 87)
  else if 'A' ≤ c ∧ c ≤ 'F' then some (c.toNat - 55)
  else none

/-- Hex decoding (`Buffer.from(s, 'hex')`).  Node truncates at the first
malformed pair; the model reports failure instead — the two differ only
on malformed bundles, where `decrypt` fails either way. -/
def hexDecodeChars : List Char → Option (List Nat)
  | [] => some []
  | [_] => none
  | h :: l :: rest =>
    match hexVal h, hexVal l, hexDecodeChars rest with
    | some hi, some lo, some tl => some ((16 * hi + lo) :: tl)
    | _, _, _ => none

/-- Hex decoding of a string. -/
def hexDecode (s : String) : Option (List Nat) :=
  hexDecodeChars s.data

/-- The cryptographic primitives used by the vault, as pure functions:
`kdf` is `crypto.scryptSync`, `keystreamByte key iv i` is byte `i` of the
AES-256-CTR keystream GCM encrypts with, and `tagOf key iv ct` is the
GCM authentication tag.  All are deterministic functions of their
arguments, which is the only property the round-trip needs. -/
structure GcmPrimitives where
  kdf : String → String → Nat → List Nat
  keystreamByte : List Nat → List Nat → Nat → Nat
  tagOf : List Nat → List Nat → List Nat → List Nat

/-- The hardcoded fallback master key (`cryptoUtils.js`). -/
def DEFAULT_MASTER_KEY : String :=
  "default-master-key-change-in-production-32chars!!"

/-- The ciphertext bundle `{iv, authTag, encrypted}`, all hex strings. -/
structure EncryptedBundle where
  iv : String
  authTag : String
  encrypted : String
deriving DecidableEq, Repr

/-- First `n` keystream bytes for a key/IV pair. -/
def gcmKeystream (prims : GcmPrimitives) (key iv : List Nat) (n : Nat) : List Nat :=
  (List.range n).map (fun i => prims.keystreamByte key iv i % 256)

/-- `encrypt(text, masterKey)` (`cryptoUtils.js`): derive the key with
scrypt, GCM-encrypt under the supplied IV (the `crypto.randomBytes(16)`
value, passed here as an argument), and return the hex-encoded bundle. -/
def encrypt (prims : GcmPrimitives) (ivBytes text : List Nat)
    (masterKey : String) : EncryptedBundle :=
  let key := prims.kdf masterKey "salt" 32
  let ks := gcmKeystream prims key ivBytes text.length
  let ct := List.zipWith (fun p k => p ^^^ k) text ks
  let tag := (prims.tagOf key ivBytes ct).map (fun b => b % 256)
  { iv := hexEncodeBytes ivBytes
    authTag := hexEncodeBytes tag
    encrypted := hexEncodeBytes ct }

/-- `decrypt(encryptedData, masterKey)` (`cryptoUtils.js`): decode the
hex fields, derive the same key, recompute the GCM tag over the
ciphertext and compare it with the stored one (`setAuthTag` +
`decipher.final` verification), and XOR the keystream back out.  Any
failure — malformed hex or tag mismatch — surfaces as the single
`Failed to decrypt data` error of the source `catch`. -/
def decrypt (prims : GcmPrimitives) (encryptedData : EncryptedBundle)
    (masterKey : String) : Except String (List Nat) :=
  match hexDecode encryptedData.iv, hexDecode encryptedData.authTag,
      hexDecode encryptedData.encrypted with
  | some ivBytes, some tagBytes, some ct =>
    let key := prims.kdf masterKey "salt" 32
    let expectedTag := (prims.tagOf key ivBytes ct).map (fun b => b % 256)
    if tagBytes = expectedTag then
      Except.ok (List.zipWith (fun c k => c ^^^ k) ct
        (gcmKeystream prims key ivBytes ct.length))
    else
      Except.error "Failed to decrypt data"
  | _, _, _ => Except.error "Failed to decrypt data"

/-! ## Prompt Template Engine (`server.js` placeholder substitution)

The handlers substitute placeholders with
`prompt.replace(/\x7bname\x7d/g, value)` — a global regex whose pattern
is a literal (the braces are escaped), with a plain string as
replacement.  ECMA-262 `String.prototype.replace` scans left to right,
replaces non-overlapping occurrences, does not re-scan the inserted
replacement within the same call, and interprets the dollar escapes
`$$`, `$&`, `` $` ``, `$'` (and leaves `$n` literal here, as the
patterns have no capture groups) inside the replacement string. -/

/-- Expansion of a replacement string at one match site (ECMA-262
`GetSubstitution` for a pattern with no capture groups): `matched` is
the matched text, `before`/`after` the parts of the original subject
around the match. -/
def dollarExpand (matched before after : List Char) : List Char → List Char
  | [] => []
  | c :: rest =>
    if c = '$' then
      match rest with
      | [] => ['$']
      | e :: rest2 =>
        if e = '$' then '$' :: dollarExpand matched before after rest2
        else if e = '&' then matched ++ dollarExpand matched before after rest2
        else if e = Char.ofNat 96 then before ++ dollarExpand matched before after rest2
        else if e = Char.ofNat 39 then after ++ dollarExpand matched before after rest2
        else '$' :: e :: dollarExpand matched before after rest2
    else c :: dollarExpand matched before after rest

/-- Global literal-pattern replacement, ECMA-262 semantics.  `done` is
the already-scanned prefix of the original subject (for `` $` ``,
reversed).  The fuel argument is only a structural-recursion bound: each
step consumes at least one subject character, so `fuel = s.length`
never runs out. -/
def jsReplaceAllAux (pat repl : List Char) : Nat → List Char → List Char → List Char
  | 0, _, _ => []
  | _ + 1, [], _ => []
  | fuel + 1, c :: cs, done =>
    if pat ≠ [] ∧ pat.isPrefixOf (c :: cs) then
      dollarExpand pat done.reverse ((c :: cs).drop pat.length) repl ++
        jsReplaceAllAux pat repl fuel ((c :: cs).drop pat.length) (pat.reverse ++ done)
    else
      c :: jsReplaceAllAux pat repl fuel cs (c :: done)

/-- `s.replace(/pat/g, repl)` with a literal pattern. -/
def jsReplaceAll (s pat repl : String) : String :=
  ⟨jsReplaceAllAux pat.data repl.data s.data.length s.data []⟩

/-- The Thai default `'ไม่ระบุ'` ("not specified") used by `x || 'ไม่ระบุ'`. -/
def NOT_SPECIFIED : String := "ไม่ระบุ"

/-- JavaScript `a || b` on strings (empty string is falsy). -/
def jsOr (a b : String) : String := if a = "" then b else a

/-- The sequential placeholder chain of `POST /api/generate-demographic-questions`
(`server.js` lines 563-568): six global replacements applied in source
order to the accumulated string. -/
def renderDemographicPrompt (prompt objective topic targetAudience
    desiredInsights keyQuestions hypothesis : String) : String :=
  let p := jsReplaceAll prompt "\x7bobjective\x7d" (jsOr objective NOT_SPECIFIED)
  let p := jsReplaceAll p "\x7btopic\x7d" (jsOr topic NOT_SPECIFIED)
  let p := jsReplaceAll p "\x7btargetAudience\x7d" (jsOr targetAudience NOT_SPECIFIED)
  let p := jsReplaceAll p "\x7bdesiredInsights\x7d" (jsOr desiredInsights NOT_SPECIFIED)
  let p := jsReplaceAll p "\x7bkeyQuestions\x7d" (jsOr keyQuestions NOT_SPECIFIED)
  jsReplaceAll p "\x7bhypothesis\x7d" (jsOr hypothesis NOT_SPECIFIED)

/-- The replacement loop of `POST /api/generate-first-question`
(`server.js` lines 664-678): iterate over the entries of the
`replacements` object in insertion order, each step a global
literal-regex replacement (the `RegExp` constructor escapes the braces
of the key). -/
def applyReplacements (replacements : List (String × String)) (prompt : String) : String :=
  replacements.foldl (fun p kv => jsReplaceAll p kv.1 kv.2) prompt

/-- The `replacements` object built by `POST /api/generate-first-question`. -/
def firstQuestionReplacements (objective demographicText desiredInsights
    keyQuestions hypothesis : String) : List (String × String) :=
  [("\x7bobjective\x7d", jsOr objective NOT_SPECIFIED),
   ("\x7bdemographicData\x7d", demographicText),
   ("\x7bpreviousQuestions\x7d", "ไม่มี"),
   ("\x7bdesiredInsights\x7d", jsOr desiredInsights NOT_SPECIFIED),
   ("\x7bkeyQuestions\x7d", jsOr keyQuestions NOT_SPECIFIED),
   ("\x7bhypothesis\x7d", jsOr hypothesis NOT_SPECIFIED)]

/-- `demographicText` as computed by the first-question and
analyze-answer handlers: `key: value` lines, or `'ไม่มีข้อมูล'` when the
map is empty. -/
def demographicTextOf (demographicData : List (String × String)) : String :=
  if demographicData.isEmpty then "ไม่มีข้อมูล"
  else String.intercalate "\n"
    (demographicData.map (fun kv => kv.1 ++ ": " ++ kv.2))

/-- The sequential placeholder chain of `POST /api/analyze-answer`
(`server.js` lines 870-877), in source order. -/
def renderAnalyzePrompt (prompt objective desiredInsights keyQuestions
    hypothesis demographicText currentTopic : String)
    (previousQuestions : List String) (answer : String) : String :=
  let p := jsReplaceAll prompt "\x7bobjective\x7d" (jsOr objective NOT_SPECIFIED)
  let p := jsReplaceAll p "\x7bdesiredInsights\x7d" (jsOr desiredInsights NOT_SPECIFIED)
  let p := jsReplaceAll p "\x7bkeyQuestions\x7d" (jsOr keyQuestions NOT_SPECIFIED)
  let p := jsReplaceAll p "\x7bhypothesis\x7d" (jsOr hypothesis NOT_SPECIFIED)
  let p := jsReplaceAll p "\x7bdemographicData\x7d" demographicText
  let p := jsReplaceAll p "\x7bcurrentTopic\x7d" (jsOr currentTopic NOT_SPECIFIED)
  let p := jsReplaceAll p "\x7bpreviousQuestions\x7d"
    (jsOr (String.intercalate ", " previousQuestions) "ไม่มี")
  jsReplaceAll p "\x7banswer\x7d" answer

/-! ## A small regex interpreter for the recovery patterns

The extraction cascade of `POST /api/generate-first-question` uses five
regexes built from literals, alternations of literals, greedy
char-class stars and one greedy char-class run with a `\x7b20,200\x7d`-style
bound capturing group 1.  `matchSeq` interprets such a sequence with
ECMA-262 backtracking semantics (greedy quantifiers give back one
character at a time), and `searchMatch` adds the unanchored leftmost
search of `String.prototype.match`. -/

/-- One element of a regex sequence. -/
inductive RElem where
  | lit (s : List Char) (ci : Bool)
  | alt2 (a b : List Char) (ci : Bool)
  | star (cls : Char → Bool)
  | cap (cls : Char → Bool) (lo : Nat) (hi : Option Nat)

/-- Character comparison, optionally case-insensitive (ASCII folding, as
the `/i` patterns here are ASCII). -/
def chEq (ci : Bool) (p c : Char) : Bool :=
  if ci then p.toLower = c.toLower else p = c

/-- Match a literal at the head of the subject, returning the rest. -/
def stripLit (ci : Bool) : List Char → List Char → Option (List Char)
  | [], s => some s
  | _ :: _, [] => none
  | p :: ps, c :: cs => if chEq ci p c then stripLit ci ps cs else none

/-- Length of the maximal leading run of `cls` characters. -/
def runLen (cls : Char → Bool) : List Char → Nat
  | [] => 0
  | c :: cs => if cls c then runLen cls cs + 1 else 0

/-- Candidate quantifier lengths `lo + cnt - 1, …, lo`, longest first
(the order a greedy quantifier backtracks through). -/
def greedyLens (lo cnt : Nat) : List Nat :=
  (List.range cnt).reverse.map (fun k => lo + k)

/-- Match a regex sequence at the start of the subject; `some cap`
means success with `cap` the text of capture group 1 if it participated
(later groups override earlier ones; the patterns used here have at
most one group).  Greedy quantifiers backtrack by trying their longest
consumption first (`greedyLens`/`findSome?`). -/
def matchSeq : List RElem → List Char → Option (Option (List Char))
  | [], _ => some none
  | RElem.lit l ci :: rest, s =>
    match stripLit ci l s with
    | some s2 => matchSeq rest s2
    | none => none
  | RElem.alt2 a b ci :: rest, s =>
    match (match stripLit ci a s with
           | some s2 => matchSeq rest s2
           | none => none) with
    | some r => some r
    | none =>
      match stripLit ci b s with
      | some s2 => matchSeq rest s2
      | none => none
  | RElem.star cls :: rest, s =>
    (greedyLens 0 (runLen cls s + 1)).findSome? (fun n => matchSeq rest (s.drop n))
  | RElem.cap cls lo hi :: rest, s =>
    let m := runLen cls s
    let top := match hi with
      | some hb => min m hb
      | none => m
    if lo ≤ top then
      (greedyLens lo (top - lo + 1)).findSome? (fun n =>
        (matchSeq rest (s.drop n)).map (fun capRest =>
          match capRest with
          | some c => some c
          | none => some (s.take n)))
    else none

/-- Unanchored leftmost match (`subject.match(re)`). -/
def searchMatch (ps : List RElem) : List Char → Option (Option (List Char))
  | [] => matchSeq ps []
  | c :: cs =>
    match matchSeq ps (c :: cs) with
    | some r => some r
    | none => searchMatch ps cs

/-- `subject.match(re)`, keeping only whether it matched and the text of
group 1 (`m` and `m[1]`). -/
def jsMatchGroup1 (ps : List RElem) (s : String) : Option (Option String) :=
  match searchMatch ps s.data with
  | some (some cap) => some (some ⟨cap⟩)
  | some none => some none
  | none => none

/-- The char class `[^"]`. -/
def clsNotQuote (c : Char) : Bool := c ≠ '"'

/-- The char class `["\s:]`. -/
def clsQuoteWsColon (c : Char) : Bool :=
  c = '"' ∨ isJsWhitespace c ∨ c = ':'

/-- The char class `[^"\x7d\n]` (no quote, closing brace or newline). -/
def clsLoose (c : Char) : Bool :=
  ¬ (c = '"' ∨ c = Char.ofNat 125 ∨ c = '\n')

/-- The char class `[^\n"\x7d\x7b]` of the Thai-label pattern. -/
def clsLoose2 (c : Char) : Bool :=
  ¬ (c = '\n' ∨ c = '"' ∨ c = Char.ofNat 125 ∨ c = Char.ofNat 123)

/-- Regex 1 of the parse-failure branch: a quoted question value after a
quoted `question` label and colon (`server.js` line 744, first
alternative; the pattern without spaces around the colon). -/
def reQuestionStrict1 : List RElem :=
  [RElem.lit "\x22question\x22:".data false, RElem.star isJsWhitespace,
   RElem.lit ['"'] false, RElem.cap clsNotQuote 1 none, RElem.lit ['"'] false]

/-- Regex 2 of the parse-failure branch (`server.js` line 744, second
alternative): as above but with optional whitespace around the colon. -/
def reQuestionStrict2 : List RElem :=
  [RElem.lit "\x22question\x22".data false, RElem.star isJsWhitespace,
   RElem.lit [':'] false, RElem.star isJsWhitespace,
   RElem.lit ['"'] false, RElem.cap clsNotQuote 1 none, RElem.lit ['"'] false]

/-- The looser fallback of the parse-failure branch (`server.js` line
750): `question` label, a run of quote/whitespace/colon characters, then
a run of characters stopping at quote, closing brace or newline. -/
def reQuestionLoose : List RElem :=
  [RElem.lit "question".data true, RElem.star clsQuoteWsColon,
   RElem.cap clsLoose 1 none]

/-- Aggressive pattern 1 (`server.js` line 760): the strict quoted form,
case-insensitive. -/
def rePat1 : List RElem :=
  [RElem.lit "\x22question\x22".data true, RElem.star isJsWhitespace,
   RElem.lit [':'] true, RElem.star isJsWhitespace,
   RElem.lit ['"'] true, RElem.cap clsNotQuote 1 none, RElem.lit ['"'] true]

/-- Aggressive pattern 2 (`server.js` line 761): the loose form with a
plausible-length bound of 20-200 characters. -/
def rePat2 : List RElem :=
  [RElem.lit "question".data true, RElem.star clsQuoteWsColon,
   RElem.cap clsLoose 20 (some 200)]

/-- Aggressive pattern 3 (`server.js` line 762): a Thai or English
question label followed by 20-200 characters that are not newline,
quote or braces. -/
def rePat3 : List RElem :=
  [RElem.alt2 "คำถาม".data "question".data true, RElem.star clsQuoteWsColon,
   RElem.cap clsLoose2 20 (some 200)]

/-! ## JSON values and `JSON.parse`

The handlers attempt `JSON.parse` on the raw model reply before any
regex recovery.  `Json` embeds the parsed value (numbers keep their
source literal: the orchestration code never does arithmetic on them,
only truthiness tests), and `jsonParse` is a strict ECMA-404 parser:
whitespace, strings with escape sequences, numbers, literals, arrays
and objects, with the whole input consumed. -/

/-- A JavaScript value produced by `JSON.parse`. -/
inductive Json where
  | null
  | bool (b : Bool)
  | num (lit : String)
  | str (s : String)
  | arr (elems : List Json)
  | obj (fields : List (String × Json))
deriving Repr, BEq

/-- JSON insignificant whitespace. -/
def jsonWsChar (c : Char) : Bool :=
  c = ' ' ∨ c = '\t' ∨ c = '\n' ∨ c = '\r'

/-- Skip insignificant whitespace. -/
def skipWs (s : List Char) : List Char :=
  s.dropWhile jsonWsChar

/-- Read four hex digits. -/
def parseHex4 : List Char → Option (Nat × List Char)
  | a :: b :: c :: d :: rest =>
    match hexVal a, hexVal b, hexVal c, hexVal d with
    | some x, some y, some z, some w =>
      some (((x * 16 + y) * 16 + z) * 16 + w, rest)
    | _, _, _, _ => none
  | _ => none

/-- Body of a JSON string after the opening quote: decode escapes, stop
at the closing quote.  `\uXXXX` surrogate pairs are combined; a lone
surrogate (legal for `JSON.parse`, not a Lean scalar value) falls back
to `Char.ofNat`'s default — not exercised by the analyzed inputs. -/
def parseStringBody (fuel : Nat) (s : List Char) (acc : List Char) :
    Option (List Char × List Char) :=
  match fuel with
  | 0 => none
  | fuel + 1 =>
    match s with
    | [] => none
    | c :: cs =>
      if c = '"' then some (acc.reverse, cs)
      else if c = '\\' then
        match cs with
        | [] => none
        | e :: cs2 =>
          if e = '"' ∨ e = '\\' ∨ e = '/' then parseStringBody fuel cs2 (e :: acc)
          else if e = 'b' then parseStringBody fuel cs2 (Char.ofNat 8 :: acc)
          else if e = 'f' then parseStringBody fuel cs2 (Char.ofNat 12 :: acc)
          else if e = 'n' then parseStringBody fuel cs2 ('\n' :: acc)
          else if e = 'r' then parseStringBody fuel cs2 ('\r' :: acc)
          else if e = 't' then parseStringBody fuel cs2 ('\t' :: acc)
          else if e = 'u' then
            match parseHex4 cs2 with
            | none => none
            | some (hi, cs3) =>
              if 0xd800 ≤ hi ∧ hi ≤ 0xdbff then
                match cs3 with
                | '\\' :: 'u' :: cs4 =>
                  match parseHex4 cs4 with
                  | some (lo, cs5) =>
                    if 0xdc00 ≤ lo ∧ lo ≤ 0xdfff then
                      parseStringBody fuel cs5
                        (Char.ofNat (0x10000 + (hi - 0xd800) * 0x400 + (lo - 0xdc00)) :: acc)
                    else parseStringBody fuel cs3 (Char.ofNat hi :: acc)
                  | none => parseStringBody fuel cs3 (Char.ofNat hi :: acc)
                | _ => parseStringBody fuel cs3 (Char.ofNat hi :: acc)
              else parseStringBody fuel cs3 (Char.ofNat hi :: acc)
          else none
      else if c.toNat < 0x20 then none
      else parseStringBody fuel cs (c :: acc)

/-- Split the maximal leading digit run. -/
def splitDigits : List Char → List Char × List Char
  | [] => ([], [])
  | c :: cs =>
    if c.isDigit then
      let (ds, rest) := splitDigits cs
      (c :: ds, rest)
    else ([], c :: cs)

/-- Scan a JSON number literal
(`-? (0|[1-9][0-9]*) (\.[0-9]+)? ([eE][+-]?[0-9]+)?`), returning its
source text and the rest. -/
def scanNumber (s : List Char) : Option (List Char × List Char) :=
  let (neg, s1) := match s with
    | '-' :: rest => ([('-' : Char)], rest)
    | _ => ([], s)
  match splitDigits s1 with
  | ([], _) => none
  | (intDs, s2) =>
    if intDs.length > 1 ∧ intDs.headD '0' = '0' then none
    else
      match s2 with
      | '.' :: s2a =>
        match splitDigits s2a with
        | ([], _) => none
        | (frDs, s2b) => scanExp (neg ++ intDs ++ '.' :: frDs) s2b
      | _ => scanExp (neg ++ intDs) s2
where
  scanExp (pre : List Char) (s : List Char) : Option (List Char × List Char) :=
    match s with
    | 'e' :: rest => scanExpSign pre ['e'] rest
    | 'E' :: rest => scanExpSign pre ['E'] rest
    | _ => some (pre, s)
  scanExpSign (pre mark : List Char) (s : List Char) :
      Option (List Char × List Char) :=
    let (sign, s1) := match s with
      | '+' :: rest => (['+'], rest)
      | '-' :: rest => ([('-' : Char)], rest)
      | _ => ([], s)
    match splitDigits s1 with
    | ([], _) => none
    | (eDs, s2) => some (pre ++ mark ++ sign ++ eDs, s2)

mutual

/-- Parse one JSON value at the head of `s` (no leading whitespace). -/
def parseValue (fuel : Nat) (s : List Char) : Option (Json × List Char) :=
  match fuel with
  | 0 => none
  | fuel + 1 =>
    match s with
    | [] => none
    | c :: cs =>
      if c = '"' then
        match parseStringBody (cs.length + 1) cs [] with
        | some (content, rest) => some (Json.str ⟨content⟩, rest)
        | none => none
      else if c = Char.ofNat 123 then parseObjBody fuel (skipWs cs)
      else if c = '[' then parseArrBody fuel (skipWs cs)
      else if c = 't' then
        match stripLitCS "rue".data cs with
        | some rest => some (Json.bool true, rest)
        | none => none
      else if c = 'f' then
        match stripLitCS "alse".data cs with
        | some rest => some (Json.bool false, rest)
        | none => none
      else if c = 'n' then
        match stripLitCS "ull".data cs with
        | some rest => some (Json.null, rest)
        | none => none
      else
        match scanNumber (c :: cs) with
        | some (lit, rest) => some (Json.num ⟨lit⟩, rest)
        | none => none

/-- Parse the inside of an object after `\x7b` and leading whitespace. -/
def parseObjBody (fuel : Nat) (s : List Char) : Option (Json × List Char) :=
  match fuel with
  | 0 => none
  | fuel + 1 =>
    match s with
    | c :: cs =>
      if c = Char.ofNat 125 then some (Json.obj [], cs)
      else parseMembers fuel (c :: cs) []
    | [] => none

/-- Parse `"key" : value (, "key" : value)* \x7d`. -/
def parseMembers (fuel : Nat) (s : List Char) (acc : List (String × Json)) :
    Option (Json × List Char) :=
  match fuel with
  | 0 => none
  | fuel + 1 =>
    match s with
    | '"' :: cs =>
      match parseStringBody (cs.length + 1) cs [] with
      | none => none
      | some (key, r1) =>
        match skipWs r1 with
        | ':' :: r2 =>
          match parseValue fuel (skipWs r2) with
          | none => none
          | some (v, r3) =>
            match skipWs r3 with
            | ',' :: r4 => parseMembers fuel (skipWs r4) (acc ++ [(⟨key⟩, v)])
            | d :: r4 =>
              if d = Char.ofNat 125 then some (Json.obj (acc ++ [(⟨key⟩, v)]), r4)
              else none
            | [] => none
        | _ => none
    | _ => none

/-- Parse the inside of an array after `[` and leading whitespace. -/
def parseArrBody (fuel : Nat) (s : List Char) : Option (Json × List Char) :=
  match fuel with
  | 0 => none
  | fuel + 1 =>
    match s with
    | c :: cs =>
      if c = ']' then some (Json.arr [], cs)
      else parseElems fuel (c :: cs) []
    | [] => none

/-- Parse `value (, value)* ]`. -/
def parseElems (fuel : Nat) (s : List Char) (acc : List Json) :
    Option (Json × List Char) :=
  match fuel with
  | 0 => none
  | fuel + 1 =>
    match parseValue fuel s with
    | none => none
    | some (v, r1) =>
      match skipWs r1 with
      | ',' :: r2 => parseElems fuel (skipWs r2) (acc ++ [v])
      | ']' :: r2 => some (Json.arr (acc ++ [v]), r2)
      | _ => none

end

/-- `JSON.parse(text)`: whitespace-wrapped single value consuming the
whole input; `none` models the thrown `SyntaxError`. -/
def jsonParse (text : String) : Option Json :=
  match parseValue (4 * text.data.length + 8) (skipWs text.data) with
  | some (v, rest) => if skipWs rest = [] then some v else none
  | none => none

/-! ## JavaScript value coercions used by the handlers -/

/-- JavaScript truthiness of a JSON-parsed value. -/
def numLitIsZero (lit : String) : Bool :=
  (lit.data.takeWhile (fun c => c ≠ 'e' ∧ c ≠ 'E')).all
    (fun c => !(c.isDigit ∧ c ≠ '0'))

/-- JavaScript truthiness of a JSON-parsed value (`null`, `false`, `0`,
`''` are falsy; every object and array is truthy). -/
def jsonTruthy : Json → Bool
  | Json.null => false
  | Json.bool b => b
  | Json.num lit => !numLitIsZero lit
  | Json.str s => s ≠ ""
  | Json.arr _ => true
  | Json.obj _ => true

/-- `value[key]`: property access, `undefined` (`none`) on a non-object
or missing key; for duplicate keys `JSON.parse` keeps the last one. -/
def jsGetField (j : Json) (k : String) : Option Json :=
  match j with
  | Json.obj fields => (fields.reverse.find? (fun kv => kv.1 = k)).map (fun kv => kv.2)
  | _ => none

/-- A JavaScript `a.x || a.y || …` chain over object fields: the first
truthy field value, if any. -/
def firstTruthyField (j : Json) : List String → Option Json
  | [] => none
  | k :: rest =>
    match jsGetField j k with
    | some v => if jsonTruthy v then some v else firstTruthyField j rest
    | none => firstTruthyField j rest

/-- Truthiness of a sanitized numeric field (`undefined` or `0` falsy). -/
def jsNumTruthy : Option Int → Bool
  | none => false
  | some n => n ≠ 0

/-! ## Interview Orchestrator: `POST /api/generate-first-question` -/

/-- The request the handler passes to
`openaiClient.chat.completions.create` (the external LLM client):
the sanitized model id, the two chat messages, the sampling temperature
in tenths, the token cap, and whether `response_format: json_object`
was requested. -/
structure LlmRequest where
  model : String
  system : String
  user : String
  temperatureTenths : Nat
  maxTokens : Option Nat
  responseFormatJsonObject : Bool
deriving Repr, BEq

/-- The external LLM client: total behaviour supplied per theorem.
`Except.error` is a thrown API error (caught by the handler);
`Except.ok none` is a completion with `undefined` content. -/
def LlmClient : Type := LlmRequest → Except String (Option String)

/-- System message of the first-question handler when the model supports
JSON mode (`server.js` lines 692-702). -/
def FQ_SYSTEM_JSON : String :=
  "คุณเป็นผู้สัมภาษณ์มืออาชีพที่ต้องคิดคำถามด้วยความคิดสร้างสรรค์\n\n⚠️ กฎสำคัญที่ต้องปฏิบัติตามเสมอ:\n1. อ่าน objective อย่างละเอียดและถามเฉพาะสิ่งที่ระบุใน objective เท่านั้น\n2. ห้ามอ้างอิงถึงผลิตภัณฑ์/หัวข้อ/แบรนด์ที่ไม่ได้ระบุใน objective\n3. ถ้า objective ไม่ได้กล่าวถึง \"น้ำยาล้างจาน\" → ห้ามถามเกี่ยวกับน้ำยาล้างจาน\n4. ถ้า objective ไม่ได้กล่าวถึงผลิตภัณฑ์/หัวข้อใดๆ → ห้ามถามเกี่ยวกับสิ่งนั้น\n5. คำถามต้องมาจาก objective โดยตรงเท่านั้น\n\nคุณต้องตอบเป็น JSON format เท่านั้น โดยต้องมีฟิลด์ \"question\" ที่เป็น string และอาจจะมีฟิลด์ \"reason\" ด้วย"

/-- System message of the first-question handler without JSON mode
(`server.js` lines 703-713). -/
def FQ_SYSTEM_TEXT : String :=
  "คุณเป็นผู้สัมภาษณ์มืออาชีพที่ต้องคิดคำถามด้วยความคิดสร้างสรรค์\n\n⚠️ กฎสำคัญที่ต้องปฏิบัติตามเสมอ:\n1. อ่าน objective อย่างละเอียดและถามเฉพาะสิ่งที่ระบุใน objective เท่านั้น\n2. ห้ามอ้างอิงถึงผลิตภัณฑ์/หัวข้อ/แบรนด์ที่ไม่ได้ระบุใน objective\n3. ถ้า objective ไม่ได้กล่าวถึง \"น้ำยาล้างจาน\" → ห้ามถามเกี่ยวกับน้ำยาล้างจาน\n4. ถ้า objective ไม่ได้กล่าวถึงผลิตภัณฑ์/หัวข้อใดๆ → ห้ามถามเกี่ยวกับสิ่งนั้น\n5. คำถามต้องมาจาก objective โดยตรงเท่านั้น\n\nกรุณาตอบเป็น JSON format เท่านั้น (ไม่มีข้อความอื่นใดนอกเหนือจาก JSON) โดยต้องมีฟิลด์ \"question\" ที่เป็น string และอาจจะมีฟิลด์ \"reason\" ด้วย"

/-- Outcome of the first-question handler, keeping the
behaviour-distinguishing payload of each HTTP response. -/
inductive FqOutcome where
  | success (question : String) (reason : Json) (model : String)
  | errNoObjective
  | errNoPrompt
  | errNoQuestion
  | errCaught (message : String)
deriving Repr, BEq

/-- The parse-failure extraction of the first-question handler, second
stage (`server.js` lines 749-755): the loose `question` label pattern;
assigns the trimmed capture when the raw capture is non-empty. -/
def fqFailureExtract2 (aiResponse : String) : Option String :=
  match jsMatchGroup1 reQuestionLoose aiResponse with
  | some (some g) => if g ≠ "" then some (jsTrim g) else none
  | _ => none

/-- The parse-failure extraction of the first-question handler
(`server.js` lines 744-756): the strict quoted pattern (two regex
alternatives joined by `||`), then the loose pattern. -/
def fqFailureExtract (aiResponse : String) : Option String :=
  let mA :=
    match jsMatchGroup1 reQuestionStrict1 aiResponse with
    | some r => some r
    | none => jsMatchGroup1 reQuestionStrict2 aiResponse
  match mA with
  | some (some g) => if g ≠ "" then some g else fqFailureExtract2 aiResponse
  | _ => fqFailureExtract2 aiResponse

/-- The `result` object after the `try JSON.parse` / `catch` extraction
(`server.js` lines 741-757). -/
def fqParseResult (aiResponse : String) : Json :=
  match jsonParse aiResponse with
  | some j => j
  | none =>
    match fqFailureExtract aiResponse with
    | some q => Json.obj [("question", Json.str q)]
    | none => Json.obj []

/-- The aggressive pattern loop (`server.js` lines 758-772): first
pattern whose match has a truthy group 1 wins; the loop stores the
trimmed capture and breaks. -/
def matchPatterns (aiResponse : String) : List (List RElem) → Option String
  | [] => none
  | p :: rest =>
    match jsMatchGroup1 p aiResponse with
    | some (some g) =>
      if g ≠ "" then some (jsTrim g) else matchPatterns aiResponse rest
    | _ => matchPatterns aiResponse rest

/-- The `questionPatterns` array (`server.js` lines 759-763). -/
def questionPatterns : List (List RElem) :=
  [rePat1, rePat2, rePat3]

/-- Post-LLM processing of the first-question handler (`server.js`
lines 736-810): strict parse, extraction cascade, alternative field
names, aggressive patterns, and the final no-question failure. -/
def fqProcess (aiResponse modelToUse fallbackModel : String) : FqOutcome :=
  let result := fqParseResult aiResponse
  let question0 :=
    (firstTruthyField result ["question", "Question", "questionText", "text"]).getD
      (Json.str "")
  match question0 with
  | Json.str s =>
    let question1 :=
      if s = "" ∨ jsTrim s = "" then
        match matchPatterns aiResponse questionPatterns with
        | some q => q
        | none => s
      else s
    if question1 = "" ∨ jsTrim question1 = "" then FqOutcome.errNoQuestion
    else
      FqOutcome.success (jsTrim question1)
        ((firstTruthyField result ["reason", "Reason"]).getD
          (Json.str "Generated by AI based on objective and demographic data"))
        (jsOr modelToUse fallbackModel)
  | _ =>
    -- question0 is a truthy non-string (firstTruthyField only yields truthy
    -- values), so `question.trim()` throws a TypeError which the handler
    -- catch turns into the generic 500 response
    FqOutcome.errCaught "question.trim is not a function"

/-- The `POST /api/generate-first-question` handler (`server.js` lines
630-810), over the destructured request fields.  `interviewPrompt` is
the template the settings collaborator returns (`none` covers both a
missing template and a failed settings fetch); `db` is the persisted
registry record read by `getCurrentModel`.  Returns the outcome and the
number of LLM-client invocations. -/
def generateFirstQuestion (llm : LlmClient) (interviewPrompt : Option String)
    (db : KeysDB) (objective customPrompt model : String)
    (demographicData : List (String × String))
    (desiredInsights keyQuestions hypothesis : String) : FqOutcome × Nat :=
  if objective = "" then (FqOutcome.errNoObjective, 0)
  else
    let demographicText := demographicTextOf demographicData
    let prompt0 := jsOr customPrompt (interviewPrompt.getD "")
    if prompt0 = "" then (FqOutcome.errNoPrompt, 0)
    else
      let prompt := applyReplacements
        (firstQuestionReplacements objective demographicText desiredInsights
          keyQuestions hypothesis) prompt0
      let modelToUse := getSafeModel (jsOr model (getActiveModel db))
      let req : LlmRequest :=
        { model := modelToUse
          system := if supportsJsonMode modelToUse then FQ_SYSTEM_JSON else FQ_SYSTEM_TEXT
          user := prompt
          temperatureTenths := 9
          maxTokens := some 500
          responseFormatJsonObject := supportsJsonMode modelToUse }
      match llm req with
      | Except.error msg => (FqOutcome.errCaught msg, 1)
      | Except.ok content =>
        (fqProcess (content.getD "\x7b\x7d") modelToUse
          (getSafeModel (getActiveModel db)), 1)

/-! ## Interview Orchestrator: `POST /api/analyze-answer` -/

/-- The sanitized request produced by `validateAnalyzeAnswerRequest`
(`validation.js`): all text fields are strings (empty when absent), the
two counters are `Number(x)` when the raw field was truthy and
`undefined` otherwise (integral in every reachable request). -/
structure AnalyzeAnswerInput where
  answer : String
  objective : String
  desiredInsights : String
  keyQuestions : String
  hypothesis : String
  currentTopic : String
  customPrompt : String
  model : String
  questionCount : Option Int
  currentQuestionCount : Option Int
  previousQuestions : List String
  demographicData : List (String × String)
deriving Repr

/-- Outcome of the analyze-answer handler. -/
inductive AaOutcome where
  | success (result : Json) (model : String)
  | errNoPrompt
  | errNoQuestion
  | errCaught (message : String)
deriving Repr, BEq

/-- System message of the analyze-answer handler when the model supports
JSON mode (`server.js` line 889). -/
def AA_SYSTEM_JSON : String :=
  "คุณเป็นผู้สัมภาษณ์มืออาชีพที่ต้องวิเคราะห์คำตอบและคิดคำถามต่อยอดด้วยความคิดสร้างสรรค์ ไม่ใช้ templates หรือ patterns สำเร็จรูป ตอบเป็น JSON format เท่านั้น"

/-- System message of the analyze-answer handler without JSON mode
(`server.js` line 890). -/
def AA_SYSTEM_TEXT : String :=
  "คุณเป็นผู้สัมภาษณ์มืออาชีพที่ต้องวิเคราะห์คำตอบและคิดคำถามต่อยอดด้วยความคิดสร้างสรรค์ ไม่ใช้ templates หรือ patterns สำเร็จรูป กรุณาตอบเป็น JSON format เท่านั้น (ไม่มีข้อความอื่นใดนอกเหนือจาก JSON)"

/-- The message of the `ReferenceError` thrown when the turn-limit
branch evaluates `modelToUse` (V8 wording). -/
def TDZ_MESSAGE : String :=
  "Cannot access \x27modelToUse\x27 before initialization"

/-- The `result.nextAction` validation and final response of the
analyze-answer handler (`server.js` lines 917-935). -/
def aaValidate (result : Json) (modelField : String) : AaOutcome :=
  match jsGetField result "nextAction" with
  | some na =>
    let typeIsProbeOrNext : Bool :=
      match jsGetField na "type" with
      | some (Json.str t) => decide (t = "probe" ∨ t = "next_question")
      | _ => false
    if jsonTruthy na ∧ typeIsProbeOrNext then
      match jsGetField na "question" with
      | none => AaOutcome.errNoQuestion
      | some q =>
        if jsonTruthy q then
          match q with
          | Json.str s =>
            if jsTrim s = "" then AaOutcome.errNoQuestion
            else AaOutcome.success result modelField
          | _ =>
            -- `.trim()` on a truthy non-string throws a TypeError which
            -- the handler catch turns into the generic 500 response
            AaOutcome.errCaught "result.nextAction.question.trim is not a function"
        else AaOutcome.errNoQuestion
    else AaOutcome.success result modelField
  | none => AaOutcome.success result modelField

/-- The `POST /api/analyze-answer` handler (`server.js` lines 813-944)
after input validation, over the sanitized request.  The turn-limit
branch (lines 833-850) is taken before the prompt fetch and before any
LLM-client call, but its response object reads `modelToUse` — a `const`
declared only at line 882 of the same block — so the branch throws a
`ReferenceError` (temporal dead zone) while building the response, and
the handler's catch turns it into the generic 500
`Failed to analyze answer` response.  Returns the outcome and the
number of LLM-client invocations. -/
def analyzeAnswer (llm : LlmClient) (interviewPrompt : Option String)
    (db : KeysDB) (input : AnalyzeAnswerInput) : AaOutcome × Nat :=
  let demographicText := demographicTextOf input.demographicData
  if jsNumTruthy input.questionCount ∧ jsNumTruthy input.currentQuestionCount ∧
      input.questionCount.getD 0 ≤ input.currentQuestionCount.getD 0 then
    (AaOutcome.errCaught TDZ_MESSAGE, 0)
  else
    let prompt0 := jsOr input.customPrompt (interviewPrompt.getD "")
    if prompt0 = "" then (AaOutcome.errNoPrompt, 0)
    else
      let prompt := renderAnalyzePrompt prompt0 input.objective
        input.desiredInsights input.keyQuestions input.hypothesis
        demographicText input.currentTopic input.previousQuestions input.answer
      let modelToUse := getSafeModel (jsOr input.model (getActiveModel db))
      let req : LlmRequest :=
        { model := modelToUse
          system := if supportsJsonMode modelToUse then AA_SYSTEM_JSON else AA_SYSTEM_TEXT
          user := prompt
          temperatureTenths := 9
          maxTokens := none
          responseFormatJsonObject := supportsJsonMode modelToUse }
      match llm req with
      | Except.error msg => (AaOutcome.errCaught msg, 1)
      | Except.ok content =>
        let aiResponse := content.getD "\x7b\x7d"
        let result := (jsonParse aiResponse).getD (Json.obj [])
        (aaValidate result (jsOr modelToUse (getSafeModel (getActiveModel db))), 1)

/-- A registry record whose persisted `models` array holds only a custom
model — the shape a record has when its model list predates entries of
the current `DEFAULT_MODELS` (exactly the situation the merge comment in
`getAllKeys` anticipates). -/
def customOnlyDB : KeysDB :=
  { keys := []
    models := some [⟨"my-custom-model", "My Custom Model", "openai"⟩]
    activeModel := none }

/-! ## Supporting lemmas -/

theorem hexVal_hexDigit (n : Nat) (h : n < 16) : hexVal (hexDigit n) = some n := by
  interval_cases n <;> rfl

theorem hexDecode_hexEncode (bs : List Nat) (h : ∀ b ∈ bs, b < 256) :
    hexDecode (hexEncodeBytes bs) = some bs := by
  induction bs with
  | nil => rfl
  | cons b rest ih =>
    have hb : b < 256 := h b (List.mem_cons_self _ _)
    have ih2 := ih (fun x hx => h x (List.mem_cons_of_mem _ hx))
    have e1 : (hexEncodeBytes (b :: rest)).data =
        hexDigit (b / 16) :: hexDigit (b % 16) :: (hexEncodeBytes rest).data := rfl
    simp only [hexDecode] at ih2 ⊢
    rw [e1]
    simp only [hexDecodeChars, hexVal_hexDigit (b / 16) (by omega),
      hexVal_hexDigit (b % 16) (by omega), ih2]
    have : 16 * (b / 16) + b % 16 = b := by omega
    rw [this]

theorem dollarExpand_no_dollar (matched before after : List Char) :
    ∀ repl : List Char, ('$' : Char) ∉ repl →
      dollarExpand matched before after repl = repl := by
  intro repl
  induction repl with
  | nil => intro _; rfl
  | cons c rest ih =>
    intro h
    have hc : c ≠ '$' := fun hcc => h (by simp [hcc])
    have h2 : ('$' : Char) ∉ rest := fun hm => h (List.mem_cons_of_mem _ hm)
    unfold dollarExpand
    rw [if_neg hc, ih h2]

theorem mem_getD_nil_to_any {α : Type} {m : α} {o : Option (List α)} (l : List α)
    (h : m ∈ o.getD []) : m ∈ o.getD l := by
  cases o with
  | none => simp at h
  | some ms => simpa using h

theorem xor_byte_lt {a b : Nat} (ha : a < 256) (hb : b < 256) : a ^^^ b < 256 := by
  have h8 : (256 : Nat) = 2 ^ 8 := by norm_num
  rw [h8] at ha hb ⊢
  exact Nat.bitwise_lt_two_pow ha hb

theorem zipWith_xor_cancel :
    ∀ (l ks : List Nat), l.length ≤ ks.length →
      List.zipWith (fun c k => c ^^^ k)
        (List.zipWith (fun p k => p ^^^ k) l ks) ks = l := by
  intro l
  induction l with
  | nil => intro ks _; simp
  | cons p ps ih =>
    intro ks hlen
    cases ks with
    | nil => simp at hlen
    | cons k kr =>
      simp only [List.zipWith]
      rw [ih kr (by simpa using hlen)]
      rw [Nat.xor_cancel_right]

theorem gcmKeystream_lt (prims : GcmPrimitives) (key iv : List Nat) (n : Nat) :
    ∀ b ∈ gcmKeystream prims key iv n, b < 256 := by
  intro b hb
  simp only [gcmKeystream, List.mem_map] at hb
  obtain ⟨i, _, rfl⟩ := hb
  exact Nat.mod_lt _ (by norm_num)

theorem gcmKeystream_length (prims : GcmPrimitives) (key iv : List Nat) (n : Nat) :
    (gcmKeystream prims key iv n).length = n := by
  simp [gcmKeystream]

theorem zipWith_xor_lt :
    ∀ (l ks : List Nat), (∀ b ∈ l, b < 256) → (∀ b ∈ ks, b < 256) →
      ∀ b ∈ List.zipWith (fun p k => p ^^^ k) l ks, b < 256 := by
  intro l
  induction l with
  | nil => intro ks _ _ b hb; simp at hb
  | cons p ps ih =>
    intro ks hl hk b hb
    cases ks with
    | nil => simp at hb
    | cons k kr =>
      simp only [List.zipWith, List.mem_cons] at hb
      rcases hb with rfl | hb
      · exact xor_byte_lt (hl p (by simp)) (hk k (by simp))
      · exact ih kr (fun x hx => hl x (by simp [hx])) (fun x hx => hk x (by simp [hx])) b hb

/-! ## Claim theorems -/

/-- C2.  For every plaintext byte sequence `P` and master key `K` (and
every IV the `crypto.randomBytes` call can produce),
`decrypt(encrypt(P, K), K) = P`: the vault round-trips, for any choice
of the scrypt/AES primitives. -/
theorem decrypt_encrypt_roundtrip (prims : GcmPrimitives)
    (ivBytes text : List Nat) (masterKey : String)
    (hiv : ∀ b ∈ ivBytes, b < 256) (ht : ∀ b ∈ text, b < 256) :
    decrypt prims (encrypt prims ivBytes text masterKey) masterKey =
      Except.ok text := by
  simp only [encrypt, decrypt]
  have hks := gcmKeystream_lt prims (prims.kdf masterKey "salt" 32) ivBytes text.length
  have hct := zipWith_xor_lt text
    (gcmKeystream prims (prims.kdf masterKey "salt" 32) ivBytes text.length) ht hks
  have htag : ∀ b ∈ (prims.tagOf (prims.kdf masterKey "salt" 32) ivBytes
      (List.zipWith (fun p k => p ^^^ k) text
        (gcmKeystream prims (prims.kdf masterKey "salt" 32) ivBytes text.length))).map
        (fun b => b % 256), b < 256 := by
    intro b hb
    simp only [List.mem_map] at hb
    obtain ⟨a, _, rfl⟩ := hb
    exact Nat.mod_lt _ (by norm_num)
  rw [hexDecode_hexEncode ivBytes hiv, hexDecode_hexEncode _ htag,
    hexDecode_hexEncode _ hct]
  have hlen : (List.zipWith (fun p k => p ^^^ k) text
      (gcmKeystream prims (prims.kdf masterKey "salt" 32) ivBytes text.length)).length =
      text.length := by
    simp [List.length_zipWith, gcmKeystream_length]
  dsimp only
  rw [if_pos rfl, hlen,
    zipWith_xor_cancel text _ (by simp [gcmKeystream_length])]

/-- Witness for C2 at a concrete plaintext, IV and master key. -/
theorem decrypt_encrypt_roundtrip_witness :
    decrypt ⟨fun _ _ n => List.replicate n 7, fun _ _ i => i + 3, fun _ _ ct => ct ++ [1, 2]⟩
      (encrypt ⟨fun _ _ n => List.replicate n 7, fun _ _ i => i + 3, fun _ _ ct => ct ++ [1, 2]⟩
        [0, 255, 16, 1] [72, 101, 108, 108, 111] "master-key")
      "master-key" = Except.ok [72, 101, 108, 108, 111] :=
  decrypt_encrypt_roundtrip _ [0, 255, 16, 1] [72, 101, 108, 108, 111] "master-key"
    (by decide) (by decide)

/-- C7.  `getSafeModel` returns a confirmed-available id unchanged and
maps every other input — OpenAI-shaped or not — to the fixed default
`gpt-4o-mini`; in particular the two spec examples and the
forward-looking `gpt-5-mini`. -/
theorem getSafeModel_spec (modelId : String) :
    getSafeModel modelId =
      (if modelId ∈ confirmedAvailableModels then modelId else "gpt-4o-mini") ∧
    getSafeModel "gpt-4o-mini" = "gpt-4o-mini" ∧
    getSafeModel "totally-unknown-123" = "gpt-4o-mini" ∧
    getSafeModel "gpt-5-mini" = "gpt-4o-mini" := by
  refine ⟨?_, by decide, by decide, by decide⟩
  have hc : (confirmedAvailableModels.contains modelId = true) ↔
      modelId ∈ confirmedAvailableModels := by
    simp [List.contains_iff_exists_mem_beq, beq_iff_eq, eq_comm]
  unfold getSafeModel
  by_cases h : modelId ∈ confirmedAvailableModels
  · rw [if_pos (hc.mpr h), if_pos h]
  · rw [if_neg (fun hx => h (hc.mp hx)), if_neg h]
    split <;> rfl

/-- C8.  The four structured-output capability examples of the spec,
plus the unversioned base names `gpt-4` and `gpt-3.5-turbo` reporting
`false` (totality and determinism hold by construction: the embedding is
a Lean function). -/
theorem supportsJsonMode_spec :
    supportsJsonMode "gpt-4" = false ∧
    supportsJsonMode "gpt-4o" = true ∧
    supportsJsonMode "gpt-4-1106-preview" = true ∧
    supportsJsonMode "gpt-4-0314" = false ∧
    supportsJsonMode "gpt-3.5-turbo" = false := by
  decide

/-- C10.  On a fresh registry the advertised active model is
`gpt-5-mini`, which is outside the confirmed allow-list, so the
identifier actually used for LLM calls (`getSafeModel(getCurrentModel())`)
is `gpt-4o-mini` and differs from the advertised one. -/
theorem active_model_differs_from_used_model :
    getActiveModel freshKeysDB = "gpt-5-mini" ∧
    confirmedAvailableModels.contains (getActiveModel freshKeysDB) = false ∧
    getSafeModel (getActiveModel freshKeysDB) = "gpt-4o-mini" ∧
    getSafeModel (getActiveModel freshKeysDB) ≠ getActiveModel freshKeysDB := by
  decide

/-- C3 counterexample.  With the template `\x7bobjective\x7d`, objective value
`see \x7btopic\x7d` and topic value `T`, the later `\x7btopic\x7d` replacement step
re-scans the substituted objective value and replaces the token, so the
output is `see T` and the `\x7btopic\x7d` token does not appear literally —
refuting the claim that a placeholder token inside a supplied value is
never substituted by a later replacement step. -/
theorem render_later_placeholder_substituted :
    renderDemographicPrompt "\x7bobjective\x7d" "see \x7btopic\x7d" "T" "" "" "" "" =
      "see T" ∧
    occursIn "\x7btopic\x7d".data "see T".data = false :=
  ⟨rfl, rfl⟩

/-- C3 amended.  The substitution chain is a fixed sequence of global
replacements: a value is never re-scanned by its own step (a `\x7btopic\x7d`
token inside the topic value survives) nor by an earlier step (an
`\x7bobjective\x7d` token inside the topic value survives, the objective step
having already run), but steps later in the sequence do scan previously
substituted values (a `\x7btopic\x7d` token inside the objective value is
replaced). -/
theorem render_sequential_scan_semantics :
    renderDemographicPrompt "\x7btopic\x7d" "" "A\x7btopic\x7dB" "" "" "" "" =
      "A\x7btopic\x7dB" ∧
    renderDemographicPrompt "\x7btopic\x7d" "OBJ" "X\x7bobjective\x7dY" "" "" "" "" =
      "X\x7bobjective\x7dY" ∧
    renderDemographicPrompt "\x7bobjective\x7d" "see \x7btopic\x7d" "T" "" "" "" "" =
      "see T" :=
  ⟨rfl, rfl, rfl⟩

/-- C4 counterexample.  `String.prototype.replace` interprets dollar
escapes in the replacement string: with the supplied value `a$&b` for
`\x7bname\x7d`, the occurrence is replaced by `a\x7bname\x7db` (the `$&`
re-inserting the matched token), not by the value itself — refuting the
claim that every occurrence is replaced with the supplied value. -/
theorem applyReplacements_dollar_escape_counterexample :
    applyReplacements [("\x7bname\x7d", "a$&b")] "x\x7bname\x7dy" = "xa\x7bname\x7dby" ∧
    ("xa\x7bname\x7dby" : String) ≠ "xa$&by" :=
  ⟨rfl, by decide⟩

/-- C4 amended.  For replacement values free of `$`, the engine inserts
the value literally (`dollarExpand` is the identity), and rendering is
global and leaves unsupplied placeholders as literal text — in
particular the spec example and a two-occurrence template; values
containing `$` are inserted under the ECMA-262 dollar-escape rules
instead.  Totality (never throws) holds by construction. -/
theorem applyReplacements_amended_spec (matched before after repl : List Char)
    (h : ('$' : Char) ∉ repl) :
    dollarExpand matched before after repl = repl ∧
    applyReplacements [("\x7bname\x7d", "Ann")] "Hello \x7bname\x7d, topic \x7btopic\x7d" =
      "Hello Ann, topic \x7btopic\x7d" ∧
    applyReplacements [("\x7bname\x7d", "Ann")] "\x7bname\x7d and \x7bname\x7d" =
      "Ann and Ann" :=
  ⟨dollarExpand_no_dollar matched before after repl h, rfl, rfl⟩

/-- Witness for C4 amended at a concrete dollar-free value. -/
theorem applyReplacements_amended_spec_witness :
    dollarExpand "m".data "b".data "a".data "Ann".data = "Ann".data ∧
    applyReplacements [("\x7bname\x7d", "Ann")] "Hello \x7bname\x7d, topic \x7btopic\x7d" =
      "Hello Ann, topic \x7btopic\x7d" ∧
    applyReplacements [("\x7bname\x7d", "Ann")] "\x7bname\x7d and \x7bname\x7d" =
      "Ann and Ann" :=
  applyReplacements_amended_spec "m".data "b".data "a".data "Ann".data (by decide)

/-- C6.  The catalog `getAllKeys` exposes is exactly the built-in
catalog unioned with those persisted models whose ids do not collide
with a built-in id, and consequently every built-in model is always
present. -/
theorem getAllKeys_catalog_union (db : KeysDB) :
    (getAllKeys db).models = specCatalogUnion DEFAULT_MODELS (db.models.getD []) ∧
    ∀ m ∈ DEFAULT_MODELS, m ∈ (getAllKeys db).models := by
  have hfilter : ∀ ms : List ModelDescriptor,
      ms.filter (fun m => !((DEFAULT_MODELS.map (fun m => m.id)).contains m.id)) =
      ms.filter (fun m => decide (∀ d ∈ DEFAULT_MODELS, d.id ≠ m.id)) := by
    intro ms
    apply List.filter_congr
    intro m _
    by_cases hmem : ∃ d ∈ DEFAULT_MODELS, d.id = m.id
    · obtain ⟨d, hd, hde⟩ := hmem
      have h1 : (DEFAULT_MODELS.map (fun m => m.id)).contains m.id = true := by
        rw [List.contains_iff_exists_mem_beq]
        exact ⟨d.id, List.mem_map_of_mem _ hd, by simp [hde]⟩
      have h2 : ¬ ∀ d ∈ DEFAULT_MODELS, d.id ≠ m.id := fun hall => hall d hd hde
      rw [h1, decide_eq_false h2]
      rfl
    · have h1 : (DEFAULT_MODELS.map (fun m => m.id)).contains m.id = false := by
        rw [Bool.eq_false_iff]
        intro hc
        rw [List.contains_iff_exists_mem_beq] at hc
        obtain ⟨b, hb, hbe⟩ := hc
        rw [List.mem_map] at hb
        obtain ⟨d, hd, rfl⟩ := hb
        exact hmem ⟨d, hd, (beq_iff_eq.mp hbe).symm⟩
      have h2 : ∀ d ∈ DEFAULT_MODELS, d.id ≠ m.id := fun d hd heq => hmem ⟨d, hd, heq⟩
      rw [h1, decide_eq_true h2]
      rfl
  constructor
  · show DEFAULT_MODELS ++ (db.models.getD []).filter
        (fun m => !((DEFAULT_MODELS.map (fun m => m.id)).contains m.id)) =
      DEFAULT_MODELS ++ (db.models.getD []).filter
        (fun m => decide (∀ d ∈ DEFAULT_MODELS, d.id ≠ m.id))
    rw [hfilter]
  · intro m hm
    show m ∈ DEFAULT_MODELS ++ _
    exact List.mem_append_left _ hm

/-- Witness for C6 at the fresh registry and a built-in model. -/
theorem getAllKeys_catalog_union_witness :
    (⟨"gpt-5", "GPT-5", "openai"⟩ : ModelDescriptor) ∈ (getAllKeys freshKeysDB).models :=
  (getAllKeys_catalog_union freshKeysDB).2 _ (by decide)

/-- C5 counterexample.  On a registry state whose persisted `models`
list holds only a custom model, the built-in id `gpt-4o-mini` is in the
merged catalog exposed by `getAllKeys`, yet `setActiveModel` rejects it
with `Model not found` — because the source validates against
`db.models || DEFAULT_MODELS`, not against the merged catalog. -/
theorem setActiveModel_merged_catalog_counterexample :
    "gpt-4o-mini" ∈ mergedCatalogIds customOnlyDB ∧
    setActiveModel customOnlyDB "gpt-4o-mini" = Except.error "Model not found" :=
  ⟨by decide, rfl⟩

/-- C5 amended.  `setActiveModel(id)` succeeds — persisting `id` as the
active model and changing nothing else — exactly when `id` occurs in the
persisted `models` list (or in the built-in catalog when no list is
persisted), fails with `Model not found` otherwise; this coincides with
membership in the merged catalog only on states whose persisted list
covers every built-in id (which includes every state the registry's own
operations produce) or that persist no list at all. -/
theorem setActiveModel_persisted_list_spec (db : KeysDB) (id : String) :
    ((∃ db2, setActiveModel db id = Except.ok db2) ↔
      ∃ m ∈ db.models.getD DEFAULT_MODELS, m.id = id) ∧
    (∀ db2, setActiveModel db id = Except.ok db2 →
      db2 = { db with activeModel := some id }) ∧
    ((¬ ∃ db2, setActiveModel db id = Except.ok db2) →
      setActiveModel db id = Except.error "Model not found") ∧
    (((∀ d ∈ DEFAULT_MODELS, ∃ m ∈ db.models.getD [], m.id = d.id) ∨ db.models = none) →
      ((∃ db2, setActiveModel db id = Except.ok db2) ↔ id ∈ mergedCatalogIds db)) := by
  have hany : ((db.models.getD DEFAULT_MODELS).any (fun m => m.id = id) = true) ↔
      ∃ m ∈ db.models.getD DEFAULT_MODELS, m.id = id := by
    simp [List.any_eq_true]
  have hmerged : id ∈ mergedCatalogIds db ↔
      (∃ d ∈ DEFAULT_MODELS, d.id = id) ∨
      (∃ m ∈ db.models.getD [], m.id = id ∧ ∀ d ∈ DEFAULT_MODELS, d.id ≠ m.id) := by
    show id ∈ (DEFAULT_MODELS ++ (db.models.getD []).filter
      (fun m => !((DEFAULT_MODELS.map (fun m => m.id)).contains m.id))).map
        (fun m => m.id) ↔ _
    simp only [List.map_append, List.mem_append, List.mem_map, List.mem_filter,
      Bool.not_eq_true', Bool.eq_false_iff, Ne, List.contains_iff_exists_mem_beq,
      beq_iff_eq]
    constructor
    · rintro (⟨d, hd, rfl⟩ | ⟨m, ⟨hm, hnc⟩, rfl⟩)
      · exact Or.inl ⟨d, hd, rfl⟩
      · refine Or.inr ⟨m, hm, rfl, fun d hd heq => hnc ?_⟩
        exact ⟨d.id, ⟨d, hd, rfl⟩, heq.symm⟩
    · rintro (⟨d, hd, hde⟩ | ⟨m, hm, hme, hall⟩)
      · exact Or.inl ⟨d, hd, hde⟩
      · refine Or.inr ⟨m, ⟨hm, fun hc => ?_⟩, hme⟩
        obtain ⟨b, ⟨d, hd, rfl⟩, hbe⟩ := hc
        exact hall d hd hbe.symm
    -- membership in the merged id list, unfolded to the two unions
  by_cases h : (db.models.getD DEFAULT_MODELS).any (fun m => m.id = id) = true
  · have hok : setActiveModel db id = Except.ok { db with activeModel := some id } := by
      unfold setActiveModel
      rw [if_pos h]
    refine ⟨?_, ?_, ?_, ?_⟩
    · exact ⟨fun _ => hany.mp h, fun _ => ⟨_, hok⟩⟩
    · intro db2 heq
      rw [hok] at heq
      injection heq with h2
      exact h2.symm
    · intro habs
      exact absurd ⟨_, hok⟩ habs
    · intro hcover
      refine ⟨fun _ => ?_, fun _ => ⟨_, hok⟩⟩
      obtain ⟨m, hm, hme⟩ := hany.mp h
      rcases Classical.em (∃ d ∈ DEFAULT_MODELS, d.id = m.id) with ⟨d, hd, hde⟩ | hnd
      · exact hmerged.mpr (Or.inl ⟨d, hd, hde.trans hme⟩)
      · refine hmerged.mpr (Or.inr ⟨m, ?_, hme, fun d hd heq => hnd ⟨d, hd, heq⟩⟩)
        cases hcs : db.models with
        | none =>
          rw [hcs] at hm
          exact absurd ⟨m, by simpa using hm, rfl⟩ hnd
        | some ms =>
          rw [hcs] at hm
          simpa using hm
  · have herr : setActiveModel db id = Except.error "Model not found" := by
      unfold setActiveModel
      rw [if_neg (fun hp => h hp)]
    refine ⟨?_, ?_, fun _ => herr, ?_⟩
    · constructor
      · rintro ⟨db2, heq⟩
        rw [herr] at heq
        cases heq
      · intro hex
        exact absurd (hany.mpr hex) h
    · intro db2 heq
      rw [herr] at heq
      cases heq
    · intro hcover
      constructor
      · rintro ⟨db2, heq⟩
        rw [herr] at heq
        cases heq
      · intro hid
        exfalso
        rcases hmerged.mp hid with ⟨d, hd, hde⟩ | ⟨m, hm, hme, _⟩
        · rcases hcover with hcov | hnone
          · obtain ⟨m, hm, hme⟩ := hcov d hd
            exact h (hany.mpr ⟨m, mem_getD_nil_to_any _ hm, hme.trans hde⟩)
          · refine h (hany.mpr ⟨d, ?_, hde⟩)
            rw [hnone]
            exact hd
        · exact h (hany.mpr ⟨m, mem_getD_nil_to_any _ hm, hme⟩)

/-- Witness for C5 amended at the fresh registry and a built-in id. -/
theorem setActiveModel_persisted_list_spec_witness :
    (∃ db2, setActiveModel freshKeysDB "gpt-4o" = Except.ok db2) ↔
      "gpt-4o" ∈ mergedCatalogIds freshKeysDB :=
  (setActiveModel_persisted_list_spec freshKeysDB "gpt-4o").2.2.2 (Or.inl (by decide))

/-- C1.  For every request that reaches the turn-limit guard with
truthy `questionCount` and `currentQuestionCount` and
`currentQuestionCount >= questionCount`, the analyze-answer operation
does not invoke the LLM client (0 calls) — but, contrary to the claim,
it does not return a successful `complete` result: the response object
of the short-circuit branch reads the `const modelToUse` declared later
in the block, throwing a `ReferenceError` that the handler catch maps
to the generic 500 `Failed to analyze answer` response. -/
theorem analyzeAnswer_turn_limit_crash (llm : LlmClient)
    (interviewPrompt : Option String) (db : KeysDB)
    (input : AnalyzeAnswerInput) (qc cc : Int)
    (hq : input.questionCount = some qc) (hc : input.currentQuestionCount = some cc)
    (hq0 : qc ≠ 0) (hc0 : cc ≠ 0) (hle : qc ≤ cc) :
    analyzeAnswer llm interviewPrompt db input =
      (AaOutcome.errCaught TDZ_MESSAGE, 0) := by
  have hcond : (jsNumTruthy input.questionCount ∧ jsNumTruthy input.currentQuestionCount ∧
      input.questionCount.getD 0 ≤ input.currentQuestionCount.getD 0) := by
    refine ⟨?_, ?_, ?_⟩ <;> simp [jsNumTruthy, hq, hc, hq0, hc0, hle]
  unfold analyzeAnswer
  split
  · rfl
  · next hneg => exact absurd hcond hneg

/-- Witness for C1 at the spec example `questionCount = 5,
currentQuestionCount = 5`. -/
theorem analyzeAnswer_turn_limit_crash_witness :
    analyzeAnswer (fun _ => Except.ok (some "\x7b\x7d")) (some "template")
      freshKeysDB
      { answer := "I like it", objective := "Understand tea habits",
        desiredInsights := "", keyQuestions := "", hypothesis := "",
        currentTopic := "", customPrompt := "", model := "",
        questionCount := some 5, currentQuestionCount := some 5,
        previousQuestions := [], demographicData := [] } =
      (AaOutcome.errCaught TDZ_MESSAGE, 0) :=
  analyzeAnswer_turn_limit_crash _ _ _ _ 5 5 rfl rfl (by decide) (by decide)
    (by decide)

/-- C9.  End to end on the first-question operation: a model reply that
fails strict JSON parsing but contains `question: "What motivates your
choice?"` without surrounding braces is recovered by the loose extractor
(the first cascade stage with a non-empty match) as exactly that string;
and whenever the strict parse yields no question field, the
parse-failure extractors find nothing and none of the aggressive
patterns match, the operation fails with the explicit
`AI did not generate a question` error instead of fabricating one. -/
theorem firstQuestion_recovery_spec (m fb raw : String)
    (h1 : jsonParse raw = none) (h2 : fqFailureExtract raw = none)
    (h3 : matchPatterns raw questionPatterns = none) :
    generateFirstQuestion
        (fun _ => Except.ok (some "question: \"What motivates your choice?\""))
        (some "Ask about \x7bobjective\x7d") freshKeysDB "Tea habits" "" ""
        [] "" "" "" =
      (FqOutcome.success "What motivates your choice?"
        (Json.str "Generated by AI based on objective and demographic data")
        "gpt-4o-mini", 1) ∧
    fqProcess raw m fb = FqOutcome.errNoQuestion := by
  constructor
  · rfl
  · have e1 : fqParseResult raw = Json.obj [] := by
      simp only [fqParseResult, h1, h2]
    simp [fqProcess, e1, firstTruthyField, jsGetField, h3, jsTrim]

/-- Witness for C9 at a reply from which nothing is recoverable. -/
theorem firstQuestion_recovery_spec_witness :
    generateFirstQuestion
        (fun _ => Except.ok (some "question: \"What motivates your choice?\""))
        (some "Ask about \x7bobjective\x7d") freshKeysDB "Tea habits" "" ""
        [] "" "" "" =
      (FqOutcome.success "What motivates your choice?"
        (Json.str "Generated by AI based on objective and demographic data")
        "gpt-4o-mini", 1) ∧
    fqProcess "hello" "gpt-4o-mini" "gpt-4o-mini" = FqOutcome.errNoQuestion :=
  firstQuestion_recovery_spec "gpt-4o-mini" "gpt-4o-mini" "hello" rfl rfl rfl

end Backend
